import Mathlib

/-
  Verification development for the google-cloud-mcp-python tool server.

  Shallow embedding of the resource normalizers (Cloud SQL instances, Compute
  Engine instances, GKE clusters) and of the asynchronous-operation polling
  loops (`_wait_cloudsql_operation_single`, `wait_cloudsql_operation`,
  `wait_gke_operation`), together with theorems about their observable
  behaviour.

  Modelling conventions:
  * Python dict lookups `d.get(key, default)` become `Option` fields read with
    `Option.getD`; a produced Python dict becomes either a structure or an
    association list `List (String × PyVal)` when key presence matters.
  * Provider calls are inputs: a status fetch becomes a stream
    `Nat → Except String _` giving the payload (`Except.ok`) or the raised
    exception (`Except.error`) of the k-th poll of a session.
  * Time is a simulated clock: a fetch is instantaneous and `time.sleep(p)`
    advances the clock by `p`, so the i-th poll of a bounded loop happens at
    simulated time `i * p`.  Polling functions additionally return ghost
    bookkeeping (total simulated blocking time, the trace of inner per-call
    timeouts) that the Python code does not return but that the theorems
    inspect.
  * Timestamp parsing (`strptime` / `fromisoformat` / `strftime`) is
    abstracted: a successful parse is represented by the (Z-stripped) source
    text, and missing input maps to `none` / "N/A" exactly as in the source.
    No theorem below depends on the parse outcome for non-empty strings.
  * All loops are written with explicit fuel so that every definition is
    executable by kernel reduction; the fuel supplied at the top level is
    proved sufficient under the hypotheses of the theorems.
-/

/-- A Python value stored in a produced dict. -/
inductive PyVal where
  | str (s : String)
  | nat (n : Nat)
  | bool (b : Bool)
  | null
  | strList (l : List String)
deriving DecidableEq

def optStrVal : Option String → PyVal
  | some s => .str s
  | none => .null

def optBoolVal : Option Bool → PyVal
  | some b => .bool b
  | none => .null

/-- Python `str.split(sep)` for a single-character separator:
splits at every occurrence; the empty string yields `[""]`. -/
def pySplitCharAux (sep : Char) : List Char → List Char → List String
  | [], acc => [String.mk acc.reverse]
  | c :: cs, acc =>
    if c = sep then String.mk acc.reverse :: pySplitCharAux sep cs []
    else pySplitCharAux sep cs (c :: acc)

def pySplitOnChar (sep : Char) (s : String) : List String :=
  pySplitCharAux sep s.data []

/-- Python `sep.join(xs)`. -/
def pyJoin (sep : String) : List String → String
  | [] => ""
  | x :: xs => xs.foldl (fun acc y => acc ++ sep ++ y) x

/-- Python `c in s` for a single character. -/
def pyContainsChar (c : Char) (s : String) : Bool :=
  s.data.contains c

/-- Python `s.upper()` (ASCII, as used by the version-string tokens). -/
def pyUpper (s : String) : String :=
  String.mk (s.data.map Char.toUpper)

/-- Python `s.capitalize()`: first character upper-cased, the rest lower-cased. -/
def pyCapitalize (s : String) : String :=
  match s.data with
  | [] => ""
  | c :: cs => String.mk (Char.toUpper c :: cs.map Char.toLower)

/-- Python `a or b` on an optional string (`None` and `""` are falsy). -/
def pyOrStr (a : Option String) (b : String) : String :=
  match a with
  | some s => if s = "" then b else s
  | none => b

/-- The Z-trimming step of `_get_dt` in `cloudsql.py`:
`if dt_str.endswith("Z"): dt_str = dt_str[:-1]`. -/
def pyStripTrailingZ (s : String) : String :=
  match s.data.getLast? with
  | some 'Z' => String.mk s.data.dropLast
  | _ => s

/-- Embeds `_get_dt` of `GcpCloudSQLItem.build` (cloudsql.py): `None` for a
missing/empty input; a successful RFC3339 parse is abstracted as the
Z-stripped source text (re-serialized by `asdict` via `isoformat`). -/
def pyGetDt (dt_str : String) : Option String :=
  if dt_str = "" then none
  else some (pyStripTrailingZ dt_str)

/- ------------------------------------------------------------------
   Cloud SQL instance normalizer (src/tools/cloudsql.py)
   ------------------------------------------------------------------ -/

structure SqlIpConfiguration where
  sslMode : Option String := none
deriving DecidableEq

structure SqlSettings where
  activationPolicy : Option String := none
  availabilityType : Option String := none
  ipConfiguration : Option SqlIpConfiguration := none
  dataDiskSizeGb : Option Nat := none
  dataDiskType : Option String := none
  tier : Option String := none
deriving DecidableEq

structure SqlIpAddress where
  type : Option String := none
  ipAddress : Option String := none
deriving DecidableEq

structure SqlScheduledMaintenance where
  canReschedule : Option Bool := none
  startTime : Option String := none
  scheduleDeadlineTime : Option String := none
deriving DecidableEq

/-- Raw Cloud SQL Admin API instance record (the fields `build` reads). -/
structure SqlInstanceRaw where
  name : Option String := none
  databaseVersion : Option String := none
  settings : Option SqlSettings := none
  gceZone : Option String := none
  instanceType : Option String := none
  createTime : Option String := none
  ipAddresses : List SqlIpAddress := []
  scheduledMaintenance : Option SqlScheduledMaintenance := none
  maintenanceVersion : Option String := none
  availableMaintenanceVersions : List String := []
deriving DecidableEq

/-- The `GcpCloudSQLItem` dataclass. -/
structure GcpCloudSQLItem where
  name : String
  database_type : String
  database_version : String
  status : String
  zone : String
  is_replica : Bool
  is_ha_enabled : Bool
  is_ssl_enabled : Bool
  disk_size : Nat
  disk_type : String
  machine_type : String
  create_time : Option String
  internal_ip_address : Option String := none
  public_ip_address : Option String := none
  ma_reschedulable : Option Bool := none
  ma_start_time : Option String := none
  ma_deadline_time : Option String := none
  ma_version : Option String := none
  ma_available_version : List String := []
deriving DecidableEq

/-- `__get_status` inside `GcpCloudSQLItem.build`. -/
def sqlGetStatus (inst : SqlInstanceRaw) : String :=
  if (inst.settings.getD {}).activationPolicy = some "ALWAYS" then "RUNNING"
  else "STOPPED"

/-- `__get_db_type` inside `GcpCloudSQLItem.build`. -/
def sqlGetDbType (db_type : String) : String :=
  if pyUpper db_type = "MYSQL" then "MySQL"
  else if pyUpper db_type = "POSTGRES" then "Postgres"
  else pyCapitalize db_type

/-- One step of the `for ip_addr in instance.get("ipAddresses", [])` loop. -/
def sqlApplyIp (item : GcpCloudSQLItem) (ip_addr : SqlIpAddress) : GcpCloudSQLItem :=
  if ip_addr.type == some "PRIVATE" then
    { item with internal_ip_address := ip_addr.ipAddress }
  else if ip_addr.type == some "PRIMARY" then
    { item with public_ip_address := ip_addr.ipAddress }
  else item

/-- `GcpCloudSQLItem.build` (cloudsql.py).  `app_name` and `project_id` are
accepted and unused exactly as in the source. -/
def GcpCloudSQLItem.build (app_name project_id : String) (inst : SqlInstanceRaw) :
    GcpCloudSQLItem :=
  let settings := inst.settings.getD {}
  let version_splited := pySplitOnChar '_' (inst.databaseVersion.getD "")
  let item : GcpCloudSQLItem :=
    { name := inst.name.getD ""
      database_type :=
        match version_splited with
        | [] => ""
        | v0 :: _ => if v0 = "" then "" else sqlGetDbType v0
      database_version :=
        if 1 < version_splited.length then pyJoin "." (version_splited.drop 1) else ""
      status := sqlGetStatus inst
      zone := inst.gceZone.getD ""
      is_replica := inst.instanceType == some "READ_REPLICA_INSTANCE"
      is_ha_enabled := settings.availabilityType == some "REGIONAL"
      is_ssl_enabled :=
        ((settings.ipConfiguration.getD {}).sslMode.getD
            "ALLOW_UNENCRYPTED_AND_ENCRYPTED")
          == "TRUSTED_CLIENT_CERTIFICATE_REQUIRED"
      disk_size := settings.dataDiskSizeGb.getD 0
      disk_type := settings.dataDiskType.getD ""
      machine_type := settings.tier.getD ""
      create_time := pyGetDt (inst.createTime.getD "") }
  let item := inst.ipAddresses.foldl sqlApplyIp item
  match inst.scheduledMaintenance with
  | some sm =>
    { item with
        ma_reschedulable := some (sm.canReschedule == some true)
        ma_start_time :=
          match sm.startTime with
          | some s => if s = "" then none else pyGetDt s
          | none => none
        ma_deadline_time :=
          match sm.scheduleDeadlineTime with
          | some s => if s = "" then none else pyGetDt s
          | none => none
        ma_version := inst.maintenanceVersion
        ma_available_version := inst.availableMaintenanceVersions }
  | none => item

/-- `GcpCloudSQLItem.asdict`: the dataclass `__dict__` with datetimes
serialized, as an association list in field order. -/
def GcpCloudSQLItem.asdict (it : GcpCloudSQLItem) : List (String × PyVal) :=
  [ ("name", .str it.name),
    ("database_type", .str it.database_type),
    ("database_version", .str it.database_version),
    ("status", .str it.status),
    ("zone", .str it.zone),
    ("is_replica", .bool it.is_replica),
    ("is_ha_enabled", .bool it.is_ha_enabled),
    ("is_ssl_enabled", .bool it.is_ssl_enabled),
    ("disk_size", .nat it.disk_size),
    ("disk_type", .str it.disk_type),
    ("machine_type", .str it.machine_type),
    ("create_time", optStrVal it.create_time),
    ("internal_ip_address", optStrVal it.internal_ip_address),
    ("public_ip_address", optStrVal it.public_ip_address),
    ("ma_reschedulable", optBoolVal it.ma_reschedulable),
    ("ma_start_time", optStrVal it.ma_start_time),
    ("ma_deadline_time", optStrVal it.ma_deadline_time),
    ("ma_version", optStrVal it.ma_version),
    ("ma_available_version", .strList it.ma_available_version) ]

/- ------------------------------------------------------------------
   Compute Engine instance normalizer and tools (src/tools/gce.py)
   ------------------------------------------------------------------ -/

structure GceAccessConfig where
  natIP : Option String := none
deriving DecidableEq

structure GceNetworkInterface where
  networkIP : Option String := none
  accessConfigs : List GceAccessConfig := []
deriving DecidableEq

structure GceDisk where
  boot : Option Bool := none
  deviceName : Option String := none
  diskSizeGb : Option String := none
deriving DecidableEq

/-- Raw GCE instance record (`compute_v1.Instance.to_dict`), the fields
`GcpComputeInstanceItem` reads. -/
structure GceInstanceRaw where
  name : Option String := none
  zone : Option String := none
  machineType : Option String := none
  status : Option String := none
  networkInterfaces : List GceNetworkInterface := []
  disks : List GceDisk := []
  creationTimestamp : Option String := none
deriving DecidableEq

/-- The `name` property of `GcpComputeInstanceItem`. -/
def GcpComputeInstanceItem.name (data : GceInstanceRaw) : String :=
  data.name.getD "Unknown"

/-- The `zone` property of `GcpComputeInstanceItem`: last path segment of the
zone URL. -/
def GcpComputeInstanceItem.zone (data : GceInstanceRaw) : String :=
  let zone_url := data.zone.getD "Unknown"
  if pyContainsChar '/' zone_url then (pySplitOnChar '/' zone_url).getLastD ""
  else zone_url

/-- Embeds `GcpComputeInstanceItem._get_dt`: "N/A" for missing input; the
strftime-formatted (or, on parse failure, verbatim) result is abstracted as
the source string. -/
def gceGetDt (dt_str : Option String) : String :=
  match dt_str with
  | none => "N/A"
  | some s => if s = "" then "N/A" else s

/-- Boot-disk resolution inside `GcpComputeInstanceItem.build`: the first disk
flagged `boot: true`, else the first disk of a non-empty list, else none. -/
def resolveBootDisk (disks_data : List GceDisk) : Option GceDisk :=
  match disks_data.find? (fun disk_item => disk_item.boot == some true) with
  | some d => some d
  | none => disks_data.head?

/-- `GcpComputeInstanceItem.build`: the structured display dict. -/
def GcpComputeInstanceItem.build (project_id : Option String) (data : GceInstanceRaw) :
    List (String × PyVal) :=
  let machine_type_url := data.machineType.getD ""
  let machine_type :=
    if pyContainsChar '/' machine_type_url then (pySplitOnChar '/' machine_type_url).getLastD ""
    else machine_type_url
  let internal_ip :=
    match data.networkInterfaces with
    | [] => "N/A"
    | primary_nic :: _ => primary_nic.networkIP.getD "N/A"
  let external_ip :=
    match data.networkInterfaces with
    | [] => "N/A"
    | primary_nic :: _ =>
      match primary_nic.accessConfigs with
      | [] => "N/A"
      | ac :: _ => ac.natIP.getD "N/A"
  let found_boot_disk := resolveBootDisk data.disks
  let boot_disk_name :=
    match found_boot_disk with
    | some d => d.deviceName.getD "N/A"
    | none => "N/A"
  let boot_disk_size_gb :=
    match found_boot_disk with
    | some d => d.diskSizeGb.getD "N/A"
    | none => "N/A"
  [ ("Project ID", .str (pyOrStr project_id "N/A")),
    ("Name", .str (GcpComputeInstanceItem.name data)),
    ("Zone", .str (GcpComputeInstanceItem.zone data)),
    ("Status", .str (data.status.getD "UNKNOWN")),
    ("Machine Type", .str machine_type),
    ("Internal IP", .str internal_ip),
    ("External IP", .str external_ip),
    ("Boot Disk Name", .str boot_disk_name),
    ("Boot Disk Size (GB)", .str boot_disk_size_gb),
    ("Creation Timestamp", .str (gceGetDt data.creationTimestamp)) ]

/-- Exceptions the GCE tools catch (`google.api_core.exceptions`). -/
inductive GceExc where
  | notFound
  | apiError (msg : String)
  | unexpected (msg : String)
deriving DecidableEq

/-- `get_gce_instance`: the provider read is the input `fetch`; every caught
exception path returns the still-empty `instance_dict`. -/
def get_gce_instance (project_id zone instance_name : String)
    (fetch : Except GceExc GceInstanceRaw) : List (String × PyVal) :=
  match fetch with
  | .ok raw => GcpComputeInstanceItem.build (some project_id) raw
  | .error _ => []

/-- `list_gce_instances`: the pager yields `fetched` and then possibly raises
`interrupt`; the caught error paths return the list accumulated so far. -/
def list_gce_instances (project_id : String) (fetched : List GceInstanceRaw)
    (interrupt : Option GceExc) : List (List (String × PyVal)) :=
  let instance_list := fetched.map (fun raw =>
    GcpComputeInstanceItem.build (some project_id) raw)
  match interrupt with
  | some _ => instance_list
  | none => instance_list

/- ------------------------------------------------------------------
   GKE cluster listing (src/tools/gke.py, list_gke_clusters)
   ------------------------------------------------------------------ -/

structure GkeNodePoolRaw where
  name : String := ""
  locations : List String := []
  version : String := ""
  initial_node_count : Nat := 0
  self_link : String := ""
  statusName : String := ""
  conditions : List String := []
deriving DecidableEq

structure GkeAutopilot where
  enabled : Bool := false
deriving DecidableEq

structure GkeClusterRaw where
  id : String := ""
  name : String := ""
  location : String := ""
  clusterTierName : String := ""
  current_master_version : String := ""
  current_node_count : Nat := 0
  autopilot : GkeAutopilot := {}
  statusName : String := ""
  conditions : List String := []
  self_link : String := ""
  create_time : String := ""
  node_pools : List GkeNodePoolRaw := []
deriving DecidableEq

structure GkeNodePoolRecord where
  name : String
  locations : List String
  version : String
  initial_node_count : Nat
  self_link : String
  status : String
  conditions : List String
deriving DecidableEq

structure GkeClusterRecord where
  id : String
  name : String
  location : String
  tier : String
  current_master_version : String
  current_node_count : Nat
  autopilot_enabled : Bool
  status : String
  conditions : List String
  self_link : String
  create_time : String
  node_pools : List GkeNodePoolRecord
deriving DecidableEq

/-- The per-node-pool dict of the `list_gke_clusters` comprehension. -/
def gkeNodePoolRecord (node_pool : GkeNodePoolRaw) : GkeNodePoolRecord :=
  { name := node_pool.name
    locations := node_pool.locations
    version := node_pool.version
    initial_node_count := node_pool.initial_node_count
    self_link := node_pool.self_link
    status := node_pool.statusName
    conditions := node_pool.conditions }

/-- The per-cluster dict of the `list_gke_clusters` comprehension; the node
pool comprehension filters on `not cluster.autopilot.enabled`. -/
def gkeClusterRecord (cluster : GkeClusterRaw) : GkeClusterRecord :=
  { id := cluster.id
    name := cluster.name
    location := cluster.location
    tier := cluster.clusterTierName
    current_master_version := cluster.current_master_version
    current_node_count := cluster.current_node_count
    autopilot_enabled := cluster.autopilot.enabled
    status := cluster.statusName
    conditions := cluster.conditions
    self_link := cluster.self_link
    create_time := cluster.create_time
    node_pools :=
      (cluster.node_pools.filter (fun _ => ! cluster.autopilot.enabled)).map
        gkeNodePoolRecord }

inductive GkeListReturn where
  | clusters (l : List GkeClusterRecord)
  | envelope (error detail project_id location : String)
deriving DecidableEq

/-- `list_gke_clusters`: on a provider exception the `ErrorResponse` dict is
returned (`error = str(exc)`, `detail = repr(exc)`, both modelled by the
exception message); otherwise clusters map to records. -/
def list_gke_clusters (project_id location : String)
    (response : Except String (List GkeClusterRaw)) : GkeListReturn :=
  match response with
  | .error exc => .envelope exc exc project_id location
  | .ok cs => .clusters (cs.map gkeClusterRecord)

/- ------------------------------------------------------------------
   Cloud SQL operation polling
   (`_wait_cloudsql_operation_single`, `wait_cloudsql_operation`)
   ------------------------------------------------------------------ -/

structure SqlErrObj where
  message : String
  code : String
deriving DecidableEq

/-- A Cloud SQL operation resource as observed by one poll: its `status`
string, the rest of the provider payload abstracted as `raw`, and the
(overwritable) `error` entry. -/
structure SqlOp where
  status : String
  raw : Nat := 0
  error : Option SqlErrObj := none
deriving DecidableEq

/-- Outcome of `_wait_cloudsql_operation_single`: a raised exception (with the
ghost simulated time at which it was raised), or the returned operation
payload (with ghost fetch count and simulated blocking time), or exhausted
fuel (proved unreachable under the theorems' hypotheses). -/
inductive SqlSingleOut where
  | raised (e : String) (elapsed : Nat)
  | returned (op : SqlOp) (fetches : Nat) (elapsed : Nat)
  | fuelOut
deriving DecidableEq

/-- The polling loop of `_wait_cloudsql_operation_single`.  The j-th poll of
this session reads `fetch (start + j)` and happens at simulated time `j * p`
(`j` sleeps of `p` seconds have occurred); the loop returns the payload when
`status == "DONE"` or when the elapsed time exceeds `t`, and an exception
aborts it immediately. -/
def sqlSingleAux (fetch : Nat → Except String SqlOp) (p t start : Nat) :
    Nat → Nat → SqlSingleOut
  | 0, _ => .fuelOut
  | fuel + 1, j =>
    match fetch (start + j) with
    | .error e => .raised e (j * p)
    | .ok operation =>
      if operation.status = "DONE" then .returned operation (j + 1) (j * p)
      else if t < j * p then .returned operation (j + 1) (j * p)
      else sqlSingleAux fetch p t start fuel (j + 1)

/-- `_wait_cloudsql_operation_single(project_id, operation_id, poll_interval=p,
timeout=t)`; `start` is the ghost index of its first poll in the session's
fetch stream.  Fuel `t + 2` suffices whenever `1 ≤ p`. -/
def _wait_cloudsql_operation_single (fetch : Nat → Except String SqlOp)
    (p t start : Nat) : SqlSingleOut :=
  sqlSingleAux fetch p t start (t + 2) 0

inductive SqlWaitReturn where
  | op (o : SqlOp)
  | unknownError
deriving DecidableEq

inductive SqlOuterStatus where
  | finished (r : SqlWaitReturn)
  | raised (e : String)
  | fuelOut
deriving DecidableEq

/-- Result of `wait_cloudsql_operation` plus ghost bookkeeping: the trace of
inner per-call timeouts (`single_wait` values), the total simulated blocking
time, and the total number of polls the session issued (its polls read the
fetch-stream positions `0, 1, ..., fetches - 1`, so position `fetches - 1`
is the session's final — last observed — poll; on the raised path the count
stops at the last completed inner call and no theorem reads it). -/
structure SqlOuterOut where
  out : SqlOuterStatus
  waits : List Nat
  blocked : Nat
  fetches : Nat
deriving DecidableEq

/-- The error dict injected on complete timeout:
`{"message": f"Timed out after {timeout} seconds.", "code": "OPERATION_TIMEOUT"}`. -/
def sqlTimeoutError (timeout : Nat) : SqlErrObj :=
  { message := "Timed out after " ++ toString timeout ++ " seconds."
    code := "OPERATION_TIMEOUT" }

/-- The outer retry loop of `wait_cloudsql_operation`.  `P` is
`per_call_timeout = min(60, timeout)`; `elapsed` accumulates the inner
`single_wait` values; `idx` is the ghost position in the fetch stream;
`enrich` stands for the `instance_details` attachment performed on the DONE
path (lines 440-467 of cloudsql.py), inert under the theorems' never-DONE
hypotheses. -/
def sqlOuterAux (fetch : Nat → Except String SqlOp) (enrich : SqlOp → SqlOp)
    (p T P : Nat) :
    Nat → Nat → Nat → Nat → List Nat → Option SqlOp → SqlOuterOut
  | fuel, elapsed, idx, blocked, waits, final_operation =>
    if elapsed < T then
      match fuel with
      | 0 => { out := .fuelOut, waits := waits, blocked := blocked, fetches := idx }
      | fuel + 1 =>
        let remaining := T - elapsed
        let single_wait := min P remaining
        match _wait_cloudsql_operation_single fetch p single_wait idx with
        | .raised e b =>
          { out := .raised e, waits := waits ++ [single_wait]
            blocked := blocked + b, fetches := idx }
        | .fuelOut =>
          { out := .fuelOut, waits := waits ++ [single_wait]
            blocked := blocked, fetches := idx }
        | .returned operation used b =>
          if operation.status = "DONE" then
            { out := .finished (.op (enrich operation))
              waits := waits ++ [single_wait]
              blocked := blocked + b
              fetches := idx + used }
          else
            sqlOuterAux fetch enrich p T P fuel (elapsed + single_wait) (idx + used)
              (blocked + b) (waits ++ [single_wait]) (some operation)
    else
      match final_operation with
      | some operation =>
        { out := .finished (.op { operation with error := some (sqlTimeoutError T) })
          waits := waits
          blocked := blocked
          fetches := idx }
      | none =>
        { out := .finished .unknownError, waits := waits, blocked := blocked
          fetches := idx }

/-- `wait_cloudsql_operation(project_id, operation_id, poll_interval=p,
timeout=T)` with `per_call_timeout = min(60, T)`.  Fuel `T + 1` suffices
whenever `1 ≤ T` (each iteration advances `elapsed` by at least one). -/
def wait_cloudsql_operation (fetch : Nat → Except String SqlOp)
    (enrich : SqlOp → SqlOp) (p T : Nat) : SqlOuterOut :=
  sqlOuterAux fetch enrich p T (min 60 T) (T + 1) 0 0 0 [] none

/-- Follows the spec's words, for comparison with the recorded trace of
`wait_cloudsql_operation`: the schedule of bounded inner polls, each "capped
at `min(perCallTimeout, remainingTime)`", until the remaining time is
exhausted. -/
def specScheduleAux (P : Nat) : Nat → Nat → List Nat
  | 0, _ => []
  | fuel + 1, rem =>
    if rem = 0 then [] else min P rem :: specScheduleAux P fuel (rem - min P rem)

/-- The per-call waits the spec prescribes for a total budget `T` with
per-call ceiling `P`. -/
def specSchedule (P T : Nat) : List Nat :=
  specScheduleAux P (T + 1) T

/- ------------------------------------------------------------------
   GKE operation polling (`wait_gke_operation`)
   ------------------------------------------------------------------ -/

/-- `container_v1.types.Operation.Status`. -/
inductive GkeStatus where
  | statusUnspecified
  | pending
  | running
  | done
  | aborting
deriving DecidableEq

def GkeStatus.name : GkeStatus → String
  | .statusUnspecified => "STATUS_UNSPECIFIED"
  | .pending => "PENDING"
  | .running => "RUNNING"
  | .done => "DONE"
  | .aborting => "ABORTING"

/-- A GKE operation as observed by one poll: its status enum and the error
submessage (`none` = unset; the string is `op.error.message`). -/
structure GkeOp where
  status : GkeStatus
  error : Option String := none
deriving DecidableEq

/-- `op.error.message if op.error and op.error.message else None` (DONE path). -/
def gkeDoneError : Option String → Option String
  | some m => if m = "" then none else some m
  | none => none

/-- `op.error.message if op.error else "Unknown error"` (ABORTING path). -/
def gkeAbortingError : Option String → String
  | some m => m
  | none => "Unknown error"

/-- The success-shape dict returned by `wait_gke_operation`. -/
structure GkeWaitDict where
  done : Bool
  operation_id : String
  status : String
  error : Option String
  timeout : Bool
  project_id : String
  location : String
deriving DecidableEq

/-- Outcome of `wait_gke_operation`: the status dict, or the caught-exception
envelope `{"error": str(exc), "context": {...}}`; each carries the ghost
simulated time at which it was produced. -/
inductive GkeWaitOut where
  | result (d : GkeWaitDict) (elapsed : Nat)
  | envelope (error project_id location operation_id : String) (elapsed : Nat)
  | fuelOut
deriving DecidableEq

/-- The polling loop of `wait_gke_operation`: the i-th poll reads `fetch i` at
simulated time `i * p`; DONE and ABORTING return immediately, then the
timeout check `time.time() - start_time > timeout` runs, else the loop
sleeps `poll_interval`.  A raised exception is caught by the surrounding
`try` and returned as an error envelope. -/
def gkeWaitAux (fetch : Nat → Except String GkeOp)
    (project_id location operation_id : String) (timeout poll_interval : Nat) :
    Nat → Nat → GkeWaitOut
  | 0, _ => .fuelOut
  | fuel + 1, i =>
    match fetch i with
    | .error exc => .envelope exc project_id location operation_id (i * poll_interval)
    | .ok op =>
      if op.status = .done then
        .result
          { done := true, operation_id := operation_id, status := op.status.name
            error := gkeDoneError op.error, timeout := false
            project_id := project_id, location := location }
          (i * poll_interval)
      else if op.status = .aborting then
        .result
          { done := false, operation_id := operation_id, status := op.status.name
            error := some (gkeAbortingError op.error), timeout := false
            project_id := project_id, location := location }
          (i * poll_interval)
      else if timeout < i * poll_interval then
        .result
          { done := false, operation_id := operation_id, status := "TIMEOUT"
            error := some ("Timeout waiting for operation " ++ operation_id)
            timeout := true, project_id := project_id, location := location }
          (i * poll_interval)
      else gkeWaitAux fetch project_id location operation_id timeout poll_interval fuel (i + 1)

/-- `wait_gke_operation(project_id, location, operation_id, timeout, poll_interval)`.
Fuel `timeout + 2` suffices whenever `1 ≤ poll_interval`. -/
def wait_gke_operation (fetch : Nat → Except String GkeOp)
    (project_id location operation_id : String) (timeout poll_interval : Nat) :
    GkeWaitOut :=
  gkeWaitAux fetch project_id location operation_id timeout poll_interval (timeout + 2) 0

/- ------------------------------------------------------------------
   Predicates used by the polling theorems
   ------------------------------------------------------------------ -/

/-- Every poll of the session succeeds and never observes a terminal
("DONE") Cloud SQL status. -/
def SqlNeverDone (fetch : Nat → Except String SqlOp) : Prop :=
  ∀ i, ∃ op, fetch i = .ok op ∧ op.status ≠ "DONE"

/-- `op` is a payload actually observed on the fetch stream. -/
def SqlObserved (fetch : Nat → Except String SqlOp) (op : SqlOp) : Prop :=
  ∃ k, fetch k = .ok op

/-- Every poll of the session succeeds and never observes a terminal
(DONE or ABORTING) GKE status. -/
def GkeNeverTerminal (fetch : Nat → Except String GkeOp) : Prop :=
  ∀ i, ∃ op, fetch i = .ok op ∧ op.status ≠ .done ∧ op.status ≠ .aborting

/- ------------------------------------------------------------------
   Concrete fixtures used by witnesses and counterexamples
   ------------------------------------------------------------------ -/

def pendingSqlOp : SqlOp := { status := "PENDING" }

/-- A session whose operation never reaches a terminal state. -/
def constPendingFetch : Nat → Except String SqlOp := fun _ => .ok pendingSqlOp

/-- A session whose first poll sees a pending payload and whose second poll
raises. -/
def sqlErrFetch : Nat → Except String SqlOp :=
  fun i => if i = 0 then .ok pendingSqlOp else .error "boom"

def runningGkeOp : GkeOp := { status := .running }

/-- A GKE session that never reaches DONE or ABORTING. -/
def constRunningGke : Nat → Except String GkeOp := fun _ => .ok runningGkeOp

/-- A GKE session whose first poll sees RUNNING and whose second poll raises. -/
def gkeErrFetch : Nat → Except String GkeOp :=
  fun i => if i = 0 then .ok runningGkeOp else .error "boom"

def sqlInstAlways : SqlInstanceRaw :=
  { settings := some { activationPolicy := some "ALWAYS" } }

def sqlInstAlways2 : SqlInstanceRaw :=
  { name := some "other"
    settings := some { activationPolicy := some "ALWAYS"
                       availabilityType := some "REGIONAL" }
    gceZone := some "us-central1-a" }

def sqlInstPg : SqlInstanceRaw := { databaseVersion := some "POSTGRES_15" }

def sqlInstNoUnderscore : SqlInstanceRaw := { databaseVersion := some "SQLSERVER" }

def bootFlaggedDisk : GceDisk :=
  { boot := some true, deviceName := some "boot-disk", diskSizeGb := some "100" }

def plainDisk : GceDisk :=
  { deviceName := some "data-disk", diskSizeGb := some "50" }

def gceInstFlagged : GceInstanceRaw := { disks := [plainDisk, bootFlaggedDisk] }

def gceInstUnflagged : GceInstanceRaw := { disks := [plainDisk] }

def autopilotCluster : GkeClusterRaw :=
  { name := "auto", autopilot := { enabled := true }, node_pools := [{ name := "np0" }] }

def standardCluster : GkeClusterRaw :=
  { name := "std", node_pools := [{ name := "np1" }, { name := "np2" }] }

/- ------------------------------------------------------------------
   Normalizer lemmas
   ------------------------------------------------------------------ -/

theorem sqlApplyIp_proj (item : GcpCloudSQLItem) (a : SqlIpAddress) :
    (sqlApplyIp item a).status = item.status ∧
    (sqlApplyIp item a).database_type = item.database_type ∧
    (sqlApplyIp item a).database_version = item.database_version := by
  unfold sqlApplyIp
  split
  · exact ⟨rfl, rfl, rfl⟩
  · split
    · exact ⟨rfl, rfl, rfl⟩
    · exact ⟨rfl, rfl, rfl⟩

theorem foldl_sqlApplyIp_proj :
    ∀ (l : List SqlIpAddress) (item : GcpCloudSQLItem),
      (l.foldl sqlApplyIp item).status = item.status ∧
      (l.foldl sqlApplyIp item).database_type = item.database_type ∧
      (l.foldl sqlApplyIp item).database_version = item.database_version := by
  intro l
  induction l with
  | nil => intro item; exact ⟨rfl, rfl, rfl⟩
  | cons a l ih =>
    intro item
    rw [List.foldl_cons]
    refine ⟨?_, ?_, ?_⟩
    · rw [(ih (sqlApplyIp item a)).1, (sqlApplyIp_proj item a).1]
    · rw [(ih (sqlApplyIp item a)).2.1, (sqlApplyIp_proj item a).2.1]
    · rw [(ih (sqlApplyIp item a)).2.2, (sqlApplyIp_proj item a).2.2]

theorem build_status_eq (app_name project_id : String) (inst : SqlInstanceRaw) :
    (GcpCloudSQLItem.build app_name project_id inst).status = sqlGetStatus inst := by
  unfold GcpCloudSQLItem.build
  cases hsm : inst.scheduledMaintenance with
  | none => exact (foldl_sqlApplyIp_proj inst.ipAddresses _).1
  | some sm => exact (foldl_sqlApplyIp_proj inst.ipAddresses _).1

theorem build_database_type_eq (app_name project_id : String) (inst : SqlInstanceRaw) :
    (GcpCloudSQLItem.build app_name project_id inst).database_type =
      (match pySplitOnChar '_' (inst.databaseVersion.getD "") with
       | [] => ""
       | v0 :: _ => if v0 = "" then "" else sqlGetDbType v0) := by
  unfold GcpCloudSQLItem.build
  cases hsm : inst.scheduledMaintenance with
  | none => exact (foldl_sqlApplyIp_proj inst.ipAddresses _).2.1
  | some sm => exact (foldl_sqlApplyIp_proj inst.ipAddresses _).2.1

theorem build_database_version_eq (app_name project_id : String) (inst : SqlInstanceRaw) :
    (GcpCloudSQLItem.build app_name project_id inst).database_version =
      (if 1 < (pySplitOnChar '_' (inst.databaseVersion.getD "")).length then
        pyJoin "." ((pySplitOnChar '_' (inst.databaseVersion.getD "")).drop 1)
      else "") := by
  unfold GcpCloudSQLItem.build
  cases hsm : inst.scheduledMaintenance with
  | none => exact (foldl_sqlApplyIp_proj inst.ipAddresses _).2.2
  | some sm => exact (foldl_sqlApplyIp_proj inst.ipAddresses _).2.2

theorem build_bootDiskFields (project_id : Option String) (inst : GceInstanceRaw) :
    (GcpComputeInstanceItem.build project_id inst).lookup "Boot Disk Name" =
      some (.str (match resolveBootDisk inst.disks with
                  | some d => d.deviceName.getD "N/A"
                  | none => "N/A")) ∧
    (GcpComputeInstanceItem.build project_id inst).lookup "Boot Disk Size (GB)" =
      some (.str (match resolveBootDisk inst.disks with
                  | some d => d.diskSizeGb.getD "N/A"
                  | none => "N/A")) :=
  ⟨rfl, rfl⟩

/- ------------------------------------------------------------------
   Claims C4, C5, C6, C8, C9, C10 — normalizer behaviour
   ------------------------------------------------------------------ -/

/-- C4: a raw database instance normalizes to status "RUNNING" exactly when
`settings.activationPolicy` equals "ALWAYS"; every other value (including an
absent field or settings block) yields "STOPPED"; and no other field of the
record affects the result. -/
theorem claim4_status_activation_policy :
    (∀ app_name project_id inst,
        ((GcpCloudSQLItem.build app_name project_id inst).status = "RUNNING" ↔
          (inst.settings.getD {}).activationPolicy = some "ALWAYS")) ∧
    (∀ app_name project_id inst,
        (GcpCloudSQLItem.build app_name project_id inst).status = "RUNNING" ∨
        (GcpCloudSQLItem.build app_name project_id inst).status = "STOPPED") ∧
    (∀ a1 p1 a2 p2 inst1 inst2,
        (inst1.settings.getD {}).activationPolicy =
          (inst2.settings.getD {}).activationPolicy →
        (GcpCloudSQLItem.build a1 p1 inst1).status =
          (GcpCloudSQLItem.build a2 p2 inst2).status) := by
  refine ⟨?_, ?_, ?_⟩
  · intro app_name project_id inst
    rw [build_status_eq]
    unfold sqlGetStatus
    by_cases h : (inst.settings.getD {}).activationPolicy = some "ALWAYS"
    · simp [h]
    · simp [h]
  · intro app_name project_id inst
    rw [build_status_eq]
    unfold sqlGetStatus
    by_cases h : (inst.settings.getD {}).activationPolicy = some "ALWAYS"
    · exact Or.inl (by simp [h])
    · exact Or.inr (by simp [h])
  · intro a1 p1 a2 p2 inst1 inst2 h
    rw [build_status_eq, build_status_eq]
    unfold sqlGetStatus
    rw [h]

/-- C4 witness: concrete records — with `activationPolicy = "ALWAYS"` the
status is "RUNNING", with an empty record it is "STOPPED", and two records
differing in every other field but agreeing on the policy get equal status. -/
theorem claim4_status_activation_policy_witness :
    ((GcpCloudSQLItem.build "a" "p" sqlInstAlways).status = "RUNNING" ↔
      (sqlInstAlways.settings.getD {}).activationPolicy = some "ALWAYS") ∧
    ((GcpCloudSQLItem.build "a" "p" ({} : SqlInstanceRaw)).status = "RUNNING" ∨
      (GcpCloudSQLItem.build "a" "p" ({} : SqlInstanceRaw)).status = "STOPPED") ∧
    (GcpCloudSQLItem.build "a" "p" sqlInstAlways).status =
      (GcpCloudSQLItem.build "b" "q" sqlInstAlways2).status :=
  ⟨claim4_status_activation_policy.1 "a" "p" sqlInstAlways,
   claim4_status_activation_policy.2.1 "a" "p" {},
   claim4_status_activation_policy.2.2 "a" "p" "b" "q" sqlInstAlways sqlInstAlways2 rfl⟩

/-- C5: splitting the compound version string on `_`, the engine token maps
through {MYSQL → "MySQL", POSTGRES → "Postgres", other → capitalized} into
`database_type` and the remaining tokens joined with "." become
`database_version`; with no underscore (a single token) the version is "". -/
theorem claim5_version_split :
    (∀ app_name project_id inst e tl,
        pySplitOnChar '_' (inst.databaseVersion.getD "") = e :: tl → e ≠ "" → tl ≠ [] →
        (GcpCloudSQLItem.build app_name project_id inst).database_type = sqlGetDbType e ∧
        (GcpCloudSQLItem.build app_name project_id inst).database_version = pyJoin "." tl) ∧
    sqlGetDbType "MYSQL" = "MySQL" ∧
    sqlGetDbType "POSTGRES" = "Postgres" ∧
    (∀ s, pyUpper s ≠ "MYSQL" → pyUpper s ≠ "POSTGRES" →
        sqlGetDbType s = pyCapitalize s) ∧
    (∀ app_name project_id inst s,
        pySplitOnChar '_' (inst.databaseVersion.getD "") = [s] →
        (GcpCloudSQLItem.build app_name project_id inst).database_version = "") := by
  refine ⟨?_, by decide, by decide, ?_, ?_⟩
  · intro app_name project_id inst e tl hsplit he htl
    constructor
    · rw [build_database_type_eq, hsplit]
      simp [he]
    · rw [build_database_version_eq, hsplit]
      cases tl with
      | nil => exact absurd rfl htl
      | cons t ts => simp
  · intro s h1 h2
    unfold sqlGetDbType
    rw [if_neg h1, if_neg h2]
  · intro app_name project_id inst s hsplit
    rw [build_database_version_eq, hsplit]
    simp

/-- C5 witness: the concrete version strings "POSTGRES_15" (splits as
["POSTGRES", "15"]) and "SQLSERVER" (no underscore). -/
theorem claim5_version_split_witness :
    ((GcpCloudSQLItem.build "a" "p" sqlInstPg).database_type = sqlGetDbType "POSTGRES" ∧
      (GcpCloudSQLItem.build "a" "p" sqlInstPg).database_version = pyJoin "." ["15"]) ∧
    sqlGetDbType "SQLSERVER" = pyCapitalize "SQLSERVER" ∧
    (GcpCloudSQLItem.build "a" "p" sqlInstNoUnderscore).database_version = "" :=
  ⟨claim5_version_split.1 "a" "p" sqlInstPg "POSTGRES" ["15"] (by decide) (by decide)
      (by decide),
   claim5_version_split.2.2.2.1 "SQLSERVER" (by decide) (by decide),
   claim5_version_split.2.2.2.2 "a" "p" sqlInstNoUnderscore "SQLSERVER" (by decide)⟩

/-- C6: boot-disk fields come from the first disk flagged `boot: true`; with
no flagged disk, from the first disk; with no disks at all, both fields are
the placeholder "N/A" (the builder is total — no error path exists). -/
theorem claim6_boot_disk_resolution :
    (∀ project_id inst d,
        inst.disks.find? (fun dk => dk.boot == some true) = some d →
        (GcpComputeInstanceItem.build project_id inst).lookup "Boot Disk Name" =
          some (.str (d.deviceName.getD "N/A")) ∧
        (GcpComputeInstanceItem.build project_id inst).lookup "Boot Disk Size (GB)" =
          some (.str (d.diskSizeGb.getD "N/A"))) ∧
    (∀ project_id inst d tl,
        inst.disks.find? (fun dk => dk.boot == some true) = none →
        inst.disks = d :: tl →
        (GcpComputeInstanceItem.build project_id inst).lookup "Boot Disk Name" =
          some (.str (d.deviceName.getD "N/A")) ∧
        (GcpComputeInstanceItem.build project_id inst).lookup "Boot Disk Size (GB)" =
          some (.str (d.diskSizeGb.getD "N/A"))) ∧
    (∀ project_id inst,
        inst.disks = [] →
        (GcpComputeInstanceItem.build project_id inst).lookup "Boot Disk Name" =
          some (.str "N/A") ∧
        (GcpComputeInstanceItem.build project_id inst).lookup "Boot Disk Size (GB)" =
          some (.str "N/A")) := by
  refine ⟨?_, ?_, ?_⟩
  · intro project_id inst d hfind
    have hres : resolveBootDisk inst.disks = some d := by
      unfold resolveBootDisk
      rw [hfind]
    rw [(build_bootDiskFields project_id inst).1, (build_bootDiskFields project_id inst).2,
      hres]
    exact ⟨rfl, rfl⟩
  · intro project_id inst d tl hfind hdisks
    have hres : resolveBootDisk inst.disks = some d := by
      unfold resolveBootDisk
      rw [hfind, hdisks]
      rfl
    rw [(build_bootDiskFields project_id inst).1, (build_bootDiskFields project_id inst).2,
      hres]
    exact ⟨rfl, rfl⟩
  · intro project_id inst hdisks
    have hres : resolveBootDisk inst.disks = none := by
      unfold resolveBootDisk
      rw [hdisks]
      rfl
    rw [(build_bootDiskFields project_id inst).1, (build_bootDiskFields project_id inst).2,
      hres]
    exact ⟨rfl, rfl⟩

/-- C6 witness: a record whose second disk is flagged, a record with only an
unflagged disk, and a record with no disks. -/
theorem claim6_boot_disk_resolution_witness :
    ((GcpComputeInstanceItem.build (some "p") gceInstFlagged).lookup "Boot Disk Name" =
        some (.str (bootFlaggedDisk.deviceName.getD "N/A")) ∧
      (GcpComputeInstanceItem.build (some "p") gceInstFlagged).lookup "Boot Disk Size (GB)" =
        some (.str (bootFlaggedDisk.diskSizeGb.getD "N/A"))) ∧
    ((GcpComputeInstanceItem.build (some "p") gceInstUnflagged).lookup "Boot Disk Name" =
        some (.str (plainDisk.deviceName.getD "N/A")) ∧
      (GcpComputeInstanceItem.build (some "p") gceInstUnflagged).lookup "Boot Disk Size (GB)" =
        some (.str (plainDisk.diskSizeGb.getD "N/A"))) ∧
    ((GcpComputeInstanceItem.build (some "p") ({} : GceInstanceRaw)).lookup "Boot Disk Name" =
        some (.str "N/A") ∧
      (GcpComputeInstanceItem.build (some "p") ({} : GceInstanceRaw)).lookup "Boot Disk Size (GB)" =
        some (.str "N/A")) :=
  ⟨claim6_boot_disk_resolution.1 (some "p") gceInstFlagged bootFlaggedDisk (by decide),
   claim6_boot_disk_resolution.2.1 (some "p") gceInstUnflagged plainDisk [] (by decide)
     (by decide),
   claim6_boot_disk_resolution.2.2 (some "p") {} (by decide)⟩

/-- C8: every documented key of a normalized record is present for every raw
input (the Cloud SQL `asdict` and the GCE `build` dict always carry the full
fixed key list), and on a fully-absent raw record every value resolves to an
explicit placeholder or default rather than an omitted key. -/
theorem claim8_keys_always_present :
    (∀ app_name project_id inst,
        ((GcpCloudSQLItem.build app_name project_id inst).asdict).map Prod.fst =
          ["name", "database_type", "database_version", "status", "zone",
           "is_replica", "is_ha_enabled", "is_ssl_enabled", "disk_size",
           "disk_type", "machine_type", "create_time", "internal_ip_address",
           "public_ip_address", "ma_reschedulable", "ma_start_time",
           "ma_deadline_time", "ma_version", "ma_available_version"]) ∧
    (∀ project_id inst,
        (GcpComputeInstanceItem.build project_id inst).map Prod.fst =
          ["Project ID", "Name", "Zone", "Status", "Machine Type", "Internal IP",
           "External IP", "Boot Disk Name", "Boot Disk Size (GB)",
           "Creation Timestamp"]) ∧
    (GcpCloudSQLItem.build "app" "proj" ({} : SqlInstanceRaw)).asdict =
      [ ("name", .str ""), ("database_type", .str ""), ("database_version", .str ""),
        ("status", .str "STOPPED"), ("zone", .str ""), ("is_replica", .bool false),
        ("is_ha_enabled", .bool false), ("is_ssl_enabled", .bool false),
        ("disk_size", .nat 0), ("disk_type", .str ""), ("machine_type", .str ""),
        ("create_time", .null), ("internal_ip_address", .null),
        ("public_ip_address", .null), ("ma_reschedulable", .null),
        ("ma_start_time", .null), ("ma_deadline_time", .null), ("ma_version", .null),
        ("ma_available_version", .strList []) ] ∧
    GcpComputeInstanceItem.build none ({} : GceInstanceRaw) =
      [ ("Project ID", .str "N/A"), ("Name", .str "Unknown"), ("Zone", .str "Unknown"),
        ("Status", .str "UNKNOWN"), ("Machine Type", .str ""),
        ("Internal IP", .str "N/A"), ("External IP", .str "N/A"),
        ("Boot Disk Name", .str "N/A"), ("Boot Disk Size (GB)", .str "N/A"),
        ("Creation Timestamp", .str "N/A") ] :=
  ⟨fun _ _ _ => rfl, fun _ _ => rfl, by decide, by decide⟩

/-- C9: `list_gke_clusters` maps each upstream cluster to a record whose
`node_pools` carry per-pool detail exactly when autopilot is disabled; an
autopilot cluster reports an empty node-pool list. -/
theorem claim9_autopilot_node_pools :
    (∀ project_id location cs,
        list_gke_clusters project_id location (.ok cs) =
          .clusters (cs.map gkeClusterRecord)) ∧
    (∀ cluster : GkeClusterRaw, cluster.autopilot.enabled = true →
        (gkeClusterRecord cluster).node_pools = []) ∧
    (∀ cluster : GkeClusterRaw, cluster.autopilot.enabled = false →
        (gkeClusterRecord cluster).node_pools =
          cluster.node_pools.map gkeNodePoolRecord) := by
  have hfilter_false : ∀ (l : List GkeNodePoolRaw), l.filter (fun _ => false) = [] := by
    intro l; induction l with
    | nil => rfl
    | cons a l ih => simp [List.filter, ih]
  have hfilter_true : ∀ (l : List GkeNodePoolRaw), l.filter (fun _ => true) = l := by
    intro l; induction l with
    | nil => rfl
    | cons a l ih => simp [List.filter, ih]
  refine ⟨fun _ _ _ => rfl, ?_, ?_⟩
  · intro cluster h
    show ((cluster.node_pools.filter (fun _ => ! cluster.autopilot.enabled)).map
      gkeNodePoolRecord) = []
    rw [h]
    simp [hfilter_false cluster.node_pools]
  · intro cluster h
    show ((cluster.node_pools.filter (fun _ => ! cluster.autopilot.enabled)).map
      gkeNodePoolRecord) = cluster.node_pools.map gkeNodePoolRecord
    rw [h]
    simp [hfilter_true cluster.node_pools]

/-- C9 witness: a concrete autopilot cluster (one raw pool, empty records) and
a concrete standard cluster (two pools, both populated). -/
theorem claim9_autopilot_node_pools_witness :
    (gkeClusterRecord autopilotCluster).node_pools = [] ∧
    (gkeClusterRecord standardCluster).node_pools =
      standardCluster.node_pools.map gkeNodePoolRecord :=
  ⟨claim9_autopilot_node_pools.2.1 autopilotCluster rfl,
   claim9_autopilot_node_pools.2.2 standardCluster rfl⟩

/-- C10: every caught provider error makes `get_gce_instance` return the empty
dict (the same value for NotFound and any API failure) and makes
`list_gce_instances` return exactly what it would have returned had the
pager ended cleanly after the same instances — no re-raise, no error
envelope, no marker distinguishing failure from absence of data. -/
theorem claim10_gce_errors_swallowed :
    (∀ project_id zone instance_name e,
        get_gce_instance project_id zone instance_name (.error e) = []) ∧
    (∀ project_id zone instance_name e1 e2,
        get_gce_instance project_id zone instance_name (.error e1) =
          get_gce_instance project_id zone instance_name (.error e2)) ∧
    (∀ project_id fetched e,
        list_gce_instances project_id fetched (some e) =
          list_gce_instances project_id fetched none) :=
  ⟨fun _ _ _ _ => rfl, fun _ _ _ _ _ => rfl, fun _ _ _ => rfl⟩

/- ------------------------------------------------------------------
   Polling lemmas
   ------------------------------------------------------------------ -/

theorem sqlSingleAux_never_done (fetch : Nat → Except String SqlOp) (p t start : Nat)
    (hp : 1 ≤ p) (hnd : SqlNeverDone fetch) :
    ∀ fuel j, j * p ≤ t + p → t + 2 ≤ fuel + j →
      ∃ op jf, j ≤ jf ∧ fetch (start + jf) = .ok op ∧ jf * p ≤ t + p ∧
        sqlSingleAux fetch p t start fuel j = .returned op (jf + 1) (jf * p) := by
  intro fuel
  induction fuel with
  | zero =>
    intro j hj hfuel
    exfalso
    have h1 : (t + 2) * p ≤ j * p := Nat.mul_le_mul_right p (by omega)
    have h2 : t * 1 ≤ t * p := Nat.mul_le_mul_left t hp
    have h3 : (t + 2) * p = t * p + 2 * p := by ring
    have h4 : t * 1 = t := Nat.mul_one t
    omega
  | succ fuel ih =>
    intro j hj hfuel
    obtain ⟨op, hf, hs⟩ := hnd (start + j)
    by_cases ht : t < j * p
    · exact ⟨op, j, Nat.le_refl j, hf, hj, by simp [sqlSingleAux, hf, hs, ht]⟩
    · have hj1 : (j + 1) * p ≤ t + p := by
        have h5 : j * p ≤ t := Nat.not_lt.mp ht
        have h6 : (j + 1) * p = j * p + p := by ring
        omega
      obtain ⟨op2, jf, hle, hf2, hjf, heq⟩ := ih (j + 1) hj1 (by omega)
      exact ⟨op2, jf, by omega, hf2, hjf, by simp [sqlSingleAux, hf, hs, ht, heq]⟩

theorem single_never_done (fetch : Nat → Except String SqlOp) (p t start : Nat)
    (hp : 1 ≤ p) (hnd : SqlNeverDone fetch) :
    ∃ op jf, fetch (start + jf) = .ok op ∧ jf * p ≤ t + p ∧
      _wait_cloudsql_operation_single fetch p t start = .returned op (jf + 1) (jf * p) := by
  obtain ⟨op, jf, _, hf, hjf, heq⟩ :=
    sqlSingleAux_never_done fetch p t start hp hnd (t + 2) 0 (by omega) (by omega)
  exact ⟨op, jf, hf, hjf, heq⟩

theorem gkeWaitAux_never_terminal (fetch : Nat → Except String GkeOp)
    (project_id location operation_id : String) (t p : Nat)
    (hp : 1 ≤ p) (hnt : GkeNeverTerminal fetch) :
    ∀ fuel i, i * p ≤ t + p → t + 2 ≤ fuel + i →
      ∃ jf, i ≤ jf ∧ jf * p ≤ t + p ∧
        gkeWaitAux fetch project_id location operation_id t p fuel i =
          .result
            { done := false, operation_id := operation_id, status := "TIMEOUT"
              error := some ("Timeout waiting for operation " ++ operation_id)
              timeout := true, project_id := project_id, location := location }
            (jf * p) := by
  intro fuel
  induction fuel with
  | zero =>
    intro i hi hfuel
    exfalso
    have h1 : (t + 2) * p ≤ i * p := Nat.mul_le_mul_right p (by omega)
    have h2 : t * 1 ≤ t * p := Nat.mul_le_mul_left t hp
    have h3 : (t + 2) * p = t * p + 2 * p := by ring
    have h4 : t * 1 = t := Nat.mul_one t
    omega
  | succ fuel ih =>
    intro i hi hfuel
    obtain ⟨op, hf, hs1, hs2⟩ := hnt i
    by_cases ht : t < i * p
    · exact ⟨i, Nat.le_refl i, hi, by simp [gkeWaitAux, hf, hs1, hs2, ht]⟩
    · have hi1 : (i + 1) * p ≤ t + p := by
        have h5 : i * p ≤ t := Nat.not_lt.mp ht
        have h6 : (i + 1) * p = i * p + p := by ring
        omega
      obtain ⟨jf, hle, hjf, heq⟩ := ih (i + 1) hi1 (by omega)
      exact ⟨jf, by omega, hjf, by simp [gkeWaitAux, hf, hs1, hs2, ht, heq]⟩

theorem specScheduleAux_zero (P : Nat) : ∀ fuel, specScheduleAux P fuel 0 = [] := by
  intro fuel
  cases fuel with
  | zero => rfl
  | succ fuel => rfl

theorem specScheduleAux_sum (P : Nat) (hP : 1 ≤ P) :
    ∀ fuel rem, rem ≤ fuel → (specScheduleAux P fuel rem).sum = rem := by
  intro fuel
  induction fuel with
  | zero =>
    intro rem h
    have h0 : rem = 0 := by omega
    subst h0
    rfl
  | succ fuel ih =>
    intro rem h
    by_cases h0 : rem = 0
    · subst h0; rfl
    · have hmin : 1 ≤ min P rem := by omega
      have hrec : (specScheduleAux P fuel (rem - min P rem)).sum = rem - min P rem :=
        ih _ (by omega)
      rw [specScheduleAux, if_neg h0, List.sum_cons, hrec]
      omega

/-- Master lemma for the never-DONE runs of the outer loop: the session
returns the payload of its final poll (stream position `fetches - 1`) with
the timeout error injected, its inner waits are the spec schedule of the
remaining budget, and its blocking time stays within one extra poll interval
per inner call. -/
theorem sqlOuterAux_never_done (fetch : Nat → Except String SqlOp)
    (enrich : SqlOp → SqlOp) (p T : Nat)
    (hp : 1 ≤ p) (hT : 1 ≤ T) (hnd : SqlNeverDone fetch) :
    ∀ fuel elapsed idx blocked waits final_operation,
      T + 1 ≤ fuel + elapsed →
      (T ≤ elapsed → ∃ op, final_operation = some op ∧ 1 ≤ idx ∧
        fetch (idx - 1) = .ok op) →
      ∃ op,
        1 ≤ (sqlOuterAux fetch enrich p T (min 60 T) fuel elapsed idx blocked waits
            final_operation).fetches ∧
        fetch ((sqlOuterAux fetch enrich p T (min 60 T) fuel elapsed idx blocked waits
            final_operation).fetches - 1) = .ok op ∧
        (sqlOuterAux fetch enrich p T (min 60 T) fuel elapsed idx blocked waits
            final_operation).out =
          .finished (.op { op with error := some (sqlTimeoutError T) }) ∧
        (sqlOuterAux fetch enrich p T (min 60 T) fuel elapsed idx blocked waits
            final_operation).waits =
          waits ++ specScheduleAux (min 60 T) fuel (T - elapsed) ∧
        (sqlOuterAux fetch enrich p T (min 60 T) fuel elapsed idx blocked waits
            final_operation).blocked ≤
          blocked + (T - elapsed) +
            (specScheduleAux (min 60 T) fuel (T - elapsed)).length * p := by
  intro fuel
  induction fuel with
  | zero =>
    intro elapsed idx blocked waits final_operation hfuel hfin
    obtain ⟨op, hfo, hidx, hfl⟩ := hfin (by omega)
    subst hfo
    have hnlt : ¬ elapsed < T := by omega
    refine ⟨op, ?_, ?_, ?_, ?_, ?_⟩
    · simpa [sqlOuterAux, hnlt] using hidx
    · simpa [sqlOuterAux, hnlt] using hfl
    · simp [sqlOuterAux, hnlt]
    · simp [sqlOuterAux, hnlt, specScheduleAux]
    · simp [sqlOuterAux, hnlt, specScheduleAux]
  | succ fuel ih =>
    intro elapsed idx blocked waits final_operation hfuel hfin
    by_cases hlt : elapsed < T
    · -- one more inner bounded call
      have hw1 : 1 ≤ min (min 60 T) (T - elapsed) := by omega
      obtain ⟨op, jf, hf, hjf, heq⟩ :=
        single_never_done fetch p (min (min 60 T) (T - elapsed)) idx hp hnd
      obtain ⟨op', hf', hs'⟩ := hnd (idx + jf)
      have hope : op = op' := by
        rw [hf] at hf'
        exact Except.ok.inj hf'
      have hsne : op.status ≠ "DONE" := by rw [hope]; exact hs'
      have hstep :
          sqlOuterAux fetch enrich p T (min 60 T) (fuel + 1) elapsed idx blocked waits
              final_operation =
            sqlOuterAux fetch enrich p T (min 60 T) fuel
              (elapsed + min (min 60 T) (T - elapsed)) (idx + (jf + 1))
              (blocked + jf * p) (waits ++ [min (min 60 T) (T - elapsed)]) (some op) := by
        simp only [sqlOuterAux, if_pos hlt, heq, if_neg hsne]
      obtain ⟨op2, hge2, hfl2, hout2, hwaits2, hblocked2⟩ :=
        ih (elapsed + min (min 60 T) (T - elapsed)) (idx + (jf + 1)) (blocked + jf * p)
          (waits ++ [min (min 60 T) (T - elapsed)]) (some op) (by omega)
          (fun _ => ⟨op, rfl, by omega, by
            have hix : idx + (jf + 1) - 1 = idx + jf := by omega
            rw [hix]
            exact hf⟩)
      have hspec :
          specScheduleAux (min 60 T) (fuel + 1) (T - elapsed) =
            min (min 60 T) (T - elapsed) ::
              specScheduleAux (min 60 T) fuel
                (T - (elapsed + min (min 60 T) (T - elapsed))) := by
        rw [specScheduleAux, if_neg (by omega : ¬ T - elapsed = 0)]
        rw [← Nat.sub_sub]
      refine ⟨op2, ?_, ?_, ?_, ?_, ?_⟩
      · rw [hstep]
        exact hge2
      · rw [hstep]
        exact hfl2
      · rw [hstep]
        exact hout2
      · rw [hstep, hwaits2, hspec]
        simp
      · rw [hstep, hspec]
        refine le_trans hblocked2 ?_
        have hlen :
            (min (min 60 T) (T - elapsed) ::
                specScheduleAux (min 60 T) fuel
                  (T - (elapsed + min (min 60 T) (T - elapsed)))).length =
              (specScheduleAux (min 60 T) fuel
                  (T - (elapsed + min (min 60 T) (T - elapsed)))).length + 1 := by
          simp
        rw [hlen]
        have hmul :
            ((specScheduleAux (min 60 T) fuel
                (T - (elapsed + min (min 60 T) (T - elapsed)))).length + 1) * p =
              (specScheduleAux (min 60 T) fuel
                (T - (elapsed + min (min 60 T) (T - elapsed)))).length * p + p :=
          Nat.succ_mul _ p
        omega
    · obtain ⟨op, hfo, hidx, hfl⟩ := hfin (by omega)
      subst hfo
      have h0 : T - elapsed = 0 := by omega
      refine ⟨op, ?_, ?_, ?_, ?_, ?_⟩
      · simpa [sqlOuterAux, hlt] using hidx
      · simpa [sqlOuterAux, hlt] using hfl
      · simp [sqlOuterAux, hlt]
      · simp [sqlOuterAux, hlt, h0, specScheduleAux]
      · simp [sqlOuterAux, hlt, h0, specScheduleAux]

theorem sqlSingleAux_abort (fetch : Nat → Except String SqlOp) (p t start : Nat)
    (e : String) :
    ∀ j fuel c, j + 1 ≤ fuel →
      (∀ i, c ≤ i → i < c + j →
        ∃ op, fetch (start + i) = .ok op ∧ op.status ≠ "DONE" ∧ i * p ≤ t) →
      fetch (start + (c + j)) = .error e →
      sqlSingleAux fetch p t start fuel c = .raised e ((c + j) * p) := by
  intro j
  induction j with
  | zero =>
    intro fuel c hfuel hpre herr
    cases fuel with
    | zero => omega
    | succ fuel =>
      simp only [Nat.add_zero] at herr
      simp [sqlSingleAux, herr]
  | succ j ih =>
    intro fuel c hfuel hpre herr
    cases fuel with
    | zero => omega
    | succ fuel =>
      obtain ⟨op, hf, hs, hle⟩ := hpre c (Nat.le_refl c) (by omega)
      have hnt : ¬ t < c * p := by omega
      have hstep : sqlSingleAux fetch p t start (fuel + 1) c =
          sqlSingleAux fetch p t start fuel (c + 1) := by
        simp only [sqlSingleAux, hf, if_neg hs, if_neg hnt]
      have hcc : c + 1 + j = c + (j + 1) := by omega
      have hrec := ih fuel (c + 1) (by omega)
        (fun i h1 h2 => hpre i (by omega) (by omega)) (by rw [hcc]; exact herr)
      rw [hstep, hrec, hcc]

theorem gkeWaitAux_abort (fetch : Nat → Except String GkeOp)
    (project_id location operation_id : String) (t p : Nat) (e : String) :
    ∀ j fuel c, j + 1 ≤ fuel →
      (∀ i, c ≤ i → i < c + j →
        ∃ op, fetch i = .ok op ∧ op.status ≠ .done ∧ op.status ≠ .aborting ∧ i * p ≤ t) →
      fetch (c + j) = .error e →
      gkeWaitAux fetch project_id location operation_id t p fuel c =
        .envelope e project_id location operation_id ((c + j) * p) := by
  intro j
  induction j with
  | zero =>
    intro fuel c hfuel hpre herr
    cases fuel with
    | zero => omega
    | succ fuel =>
      simp only [Nat.add_zero] at herr
      simp [gkeWaitAux, herr]
  | succ j ih =>
    intro fuel c hfuel hpre herr
    cases fuel with
    | zero => omega
    | succ fuel =>
      obtain ⟨op, hf, hs1, hs2, hle⟩ := hpre c (Nat.le_refl c) (by omega)
      have hnt : ¬ t < c * p := by omega
      have hstep : gkeWaitAux fetch project_id location operation_id t p (fuel + 1) c =
          gkeWaitAux fetch project_id location operation_id t p fuel (c + 1) := by
        simp only [gkeWaitAux, hf, if_neg hs1, if_neg hs2, if_neg hnt]
      have hcc : c + 1 + j = c + (j + 1) := by omega
      have hrec := ih fuel (c + 1) (by omega)
        (fun i h1 h2 => hpre i (by omega) (by omega)) (by rw [hcc]; exact herr)
      rw [hstep, hrec, hcc]

/- ------------------------------------------------------------------
   Claims C1, C2, C3, C7 — polling behaviour
   ------------------------------------------------------------------ -/

/-- C1 counterexample: against an adapter that never reaches a terminal state,
with `timeout = 1` and `poll_interval = 5`, `_wait_cloudsql_operation_single`
returns only at simulated time 5 (after one full poll interval), the outer
`wait_cloudsql_operation` therefore blocks 5 simulated seconds, and
`wait_gke_operation` likewise returns its TIMEOUT dict at time 5 — not after
about 1 second as claimed (5 is not ≤ 1). -/
theorem claim1_counterexample :
    _wait_cloudsql_operation_single constPendingFetch 5 1 0 =
      .returned pendingSqlOp 2 5 ∧
    wait_gke_operation constRunningGke "p" "l" "o" 1 5 =
      .result
        { done := false, operation_id := "o", status := "TIMEOUT"
          error := some "Timeout waiting for operation o", timeout := true
          project_id := "p", location := "l" } 5 ∧
    (wait_cloudsql_operation constPendingFetch id 5 1).blocked = 5 ∧
    ¬ (5 : Nat) ≤ 1 :=
  ⟨by decide, by decide, by decide, by decide⟩

/-- C1 (amended): for adapters that never reach a terminal state, the single
bounded polls return at the first poll past the timeout, hence block at most
`timeout + poll_interval` (`_wait_cloudsql_operation_single` returns the last
observed payload, `wait_gke_operation` a TIMEOUT dict); the chunked
`wait_cloudsql_operation` returns a TIMEOUT result blocking at most
`timeout + poll_interval` per bounded inner call. -/
theorem claim1_amended_timeout_bound :
    (∀ fetch p t start, 1 ≤ p → SqlNeverDone fetch →
        ∃ op jf, fetch (start + jf) = .ok op ∧
          _wait_cloudsql_operation_single fetch p t start =
            .returned op (jf + 1) (jf * p) ∧
          jf * p ≤ t + p) ∧
    (∀ fetch project_id location operation_id t p, 1 ≤ p → GkeNeverTerminal fetch →
        ∃ jf, wait_gke_operation fetch project_id location operation_id t p =
            .result
              { done := false, operation_id := operation_id, status := "TIMEOUT"
                error := some ("Timeout waiting for operation " ++ operation_id)
                timeout := true, project_id := project_id, location := location }
              (jf * p) ∧
          jf * p ≤ t + p) ∧
    (∀ fetch enrich p T, 1 ≤ p → 1 ≤ T → SqlNeverDone fetch →
        ∃ op, SqlObserved fetch op ∧
          (wait_cloudsql_operation fetch enrich p T).out =
            .finished (.op { op with error := some (sqlTimeoutError T) }) ∧
          (wait_cloudsql_operation fetch enrich p T).blocked ≤
            T + (wait_cloudsql_operation fetch enrich p T).waits.length * p) := by
  refine ⟨?_, ?_, ?_⟩
  · intro fetch p t start hp hnd
    obtain ⟨op, jf, hf, hjf, heq⟩ := single_never_done fetch p t start hp hnd
    exact ⟨op, jf, hf, heq, hjf⟩
  · intro fetch project_id location operation_id t p hp hnt
    obtain ⟨jf, _, hjf, heq⟩ :=
      gkeWaitAux_never_terminal fetch project_id location operation_id t p hp hnt
        (t + 2) 0 (by omega) (by omega)
    exact ⟨jf, heq, hjf⟩
  · intro fetch enrich p T hp hT hnd
    obtain ⟨op, hge, hfl, hout, hwaits, hblocked⟩ :=
      sqlOuterAux_never_done fetch enrich p T hp hT hnd (T + 1) 0 0 0 [] none
        (by omega) (fun h => absurd h (by omega))
    refine ⟨op, ⟨_, hfl⟩, hout, ?_⟩
    show (sqlOuterAux fetch enrich p T (min 60 T) (T + 1) 0 0 0 [] none).blocked ≤
      T + (sqlOuterAux fetch enrich p T (min 60 T) (T + 1) 0 0 0 [] none).waits.length * p
    rw [hwaits]
    simp only [List.nil_append]
    omega

/-- C1 amended witness: `poll_interval = 2`, `timeout = 3`, never-terminal
adapters. -/
theorem claim1_amended_timeout_bound_witness :
    (∃ op jf, constPendingFetch (0 + jf) = .ok op ∧
        _wait_cloudsql_operation_single constPendingFetch 2 3 0 =
          .returned op (jf + 1) (jf * 2) ∧
        jf * 2 ≤ 3 + 2) ∧
    (∃ jf, wait_gke_operation constRunningGke "p" "l" "o" 3 2 =
        .result
          { done := false, operation_id := "o", status := "TIMEOUT"
            error := some ("Timeout waiting for operation " ++ "o")
            timeout := true, project_id := "p", location := "l" }
          (jf * 2) ∧
      jf * 2 ≤ 3 + 2) ∧
    (∃ op, SqlObserved constPendingFetch op ∧
        (wait_cloudsql_operation constPendingFetch id 2 3).out =
          .finished (.op { op with error := some (sqlTimeoutError 3) }) ∧
        (wait_cloudsql_operation constPendingFetch id 2 3).blocked ≤
          3 + (wait_cloudsql_operation constPendingFetch id 2 3).waits.length * 2) :=
  ⟨claim1_amended_timeout_bound.1 constPendingFetch 2 3 0 (by omega)
      (by intro i; exact ⟨pendingSqlOp, rfl, by decide⟩),
   claim1_amended_timeout_bound.2.1 constRunningGke "p" "l" "o" 3 2 (by omega)
      (by intro i; exact ⟨runningGkeOp, rfl, by decide, by decide⟩),
   claim1_amended_timeout_bound.2.2 constPendingFetch id 2 3 (by omega) (by omega)
      (by intro i; exact ⟨pendingSqlOp, rfl, by decide⟩)⟩

/-- C2: when the budget is exhausted without a terminal state,
`wait_cloudsql_operation` returns (rather than throws) the last observed
operation payload — the payload of the session's final poll, at stream
position `fetches - 1` of the `fetches` polls issued — with the injected
error object `{"message": f"Timed out after {timeout} seconds.",
"code": "OPERATION_TIMEOUT"}`, a shape distinct from any provider-reported
failure. -/
theorem claim2_timeout_payload (fetch : Nat → Except String SqlOp)
    (enrich : SqlOp → SqlOp) (p T : Nat)
    (hp : 1 ≤ p) (hT : 1 ≤ T) (hnd : SqlNeverDone fetch) :
    ∃ op,
      1 ≤ (wait_cloudsql_operation fetch enrich p T).fetches ∧
      fetch ((wait_cloudsql_operation fetch enrich p T).fetches - 1) = .ok op ∧
      (wait_cloudsql_operation fetch enrich p T).out =
        .finished (.op { op with
          error := some (SqlErrObj.mk
            ("Timed out after " ++ toString T ++ " seconds.") "OPERATION_TIMEOUT") }) := by
  obtain ⟨op, hge, hfl, hout, _, _⟩ :=
    sqlOuterAux_never_done fetch enrich p T hp hT hnd (T + 1) 0 0 0 [] none
      (by omega) (fun h => absurd h (by omega))
  exact ⟨op, hge, hfl, hout⟩

/-- C2 witness: constant-PENDING adapter, `poll_interval = 2`, `timeout = 3`. -/
theorem claim2_timeout_payload_witness :
    ∃ op,
      1 ≤ (wait_cloudsql_operation constPendingFetch id 2 3).fetches ∧
      constPendingFetch ((wait_cloudsql_operation constPendingFetch id 2 3).fetches - 1) =
        .ok op ∧
      (wait_cloudsql_operation constPendingFetch id 2 3).out =
        .finished (.op { op with
          error := some (SqlErrObj.mk
            ("Timed out after " ++ toString (3 : Nat) ++ " seconds.") "OPERATION_TIMEOUT") }) :=
  claim2_timeout_payload constPendingFetch id 2 3 (by omega) (by omega)
    (by intro i; exact ⟨pendingSqlOp, rfl, by decide⟩)

/-- C3: the outer loop of `wait_cloudsql_operation` issues bounded inner polls
whose per-call waits are exactly the spec's schedule
(`min(min(60, T), remaining)` while remaining time is left), those waits sum
to `T` (elapsed accumulates until it reaches `T`, then no further inner poll
is issued), and the call returns as partial progress the last observed
status — the payload of its final poll, at stream position `fetches - 1` —
with the timeout error attached. -/
theorem claim3_outer_schedule (fetch : Nat → Except String SqlOp)
    (enrich : SqlOp → SqlOp) (p T : Nat)
    (hp : 1 ≤ p) (hT : 1 ≤ T) (hnd : SqlNeverDone fetch) :
    (wait_cloudsql_operation fetch enrich p T).waits = specSchedule (min 60 T) T ∧
    (specSchedule (min 60 T) T).sum = T ∧
    ∃ op,
      1 ≤ (wait_cloudsql_operation fetch enrich p T).fetches ∧
      fetch ((wait_cloudsql_operation fetch enrich p T).fetches - 1) = .ok op ∧
      (wait_cloudsql_operation fetch enrich p T).out =
        .finished (.op { op with error := some (sqlTimeoutError T) }) := by
  obtain ⟨op, hge, hfl, hout, hwaits, _⟩ :=
    sqlOuterAux_never_done fetch enrich p T hp hT hnd (T + 1) 0 0 0 [] none
      (by omega) (fun h => absurd h (by omega))
  refine ⟨?_, ?_, op, hge, hfl, hout⟩
  · show (sqlOuterAux fetch enrich p T (min 60 T) (T + 1) 0 0 0 [] none).waits = _
    rw [hwaits]
    simp [specSchedule]
  · exact specScheduleAux_sum (min 60 T) (by omega) (T + 1) T (by omega)

/-- C3 witness: constant-PENDING adapter, `poll_interval = 2`, `timeout = 3`. -/
theorem claim3_outer_schedule_witness :
    (wait_cloudsql_operation constPendingFetch id 2 3).waits =
      specSchedule (min 60 3) 3 ∧
    (specSchedule (min 60 3) 3).sum = 3 ∧
    ∃ op,
      1 ≤ (wait_cloudsql_operation constPendingFetch id 2 3).fetches ∧
      constPendingFetch ((wait_cloudsql_operation constPendingFetch id 2 3).fetches - 1) =
        .ok op ∧
      (wait_cloudsql_operation constPendingFetch id 2 3).out =
        .finished (.op { op with error := some (sqlTimeoutError 3) }) :=
  claim3_outer_schedule constPendingFetch id 2 3 (by omega) (by omega)
    (by intro i; exact ⟨pendingSqlOp, rfl, by decide⟩)

/-- C7: an exception raised by the status fetch aborts the poll loop at that
very poll — `_wait_cloudsql_operation_single` re-raises it and
`wait_gke_operation` returns it as an error envelope with the request
context; no fetch error is retried or swallowed. -/
theorem claim7_fetch_error_surfaces :
    (∀ fetch p t start j e, 1 ≤ p →
        (∀ i, i < j →
          ∃ op, fetch (start + i) = .ok op ∧ op.status ≠ "DONE" ∧ i * p ≤ t) →
        fetch (start + j) = .error e →
        _wait_cloudsql_operation_single fetch p t start = .raised e (j * p)) ∧
    (∀ fetch project_id location operation_id t p j e, 1 ≤ p →
        (∀ i, i < j →
          ∃ op, fetch i = .ok op ∧ op.status ≠ .done ∧ op.status ≠ .aborting ∧
            i * p ≤ t) →
        fetch j = .error e →
        wait_gke_operation fetch project_id location operation_id t p =
          .envelope e project_id location operation_id (j * p)) := by
  constructor
  · intro fetch p t start j e hp hpre herr
    have hj : j + 1 ≤ t + 2 := by
      cases j with
      | zero => omega
      | succ j =>
        obtain ⟨op, _, _, hle⟩ := hpre j (by omega)
        have hj1 : j * 1 ≤ j * p := Nat.mul_le_mul_left j hp
        have hj2 : j * 1 = j := Nat.mul_one j
        omega
    have h0j : (0 : Nat) + j = j := Nat.zero_add j
    have := sqlSingleAux_abort fetch p t start e j (t + 2) 0 (by omega)
      (fun i h1 h2 => hpre i (by omega)) (by rw [h0j]; exact herr)
    rw [_wait_cloudsql_operation_single, this, h0j]
  · intro fetch project_id location operation_id t p j e hp hpre herr
    have hj : j + 1 ≤ t + 2 := by
      cases j with
      | zero => omega
      | succ j =>
        obtain ⟨op, _, _, _, hle⟩ := hpre j (by omega)
        have hj1 : j * 1 ≤ j * p := Nat.mul_le_mul_left j hp
        have hj2 : j * 1 = j := Nat.mul_one j
        omega
    have h0j : (0 : Nat) + j = j := Nat.zero_add j
    have := gkeWaitAux_abort fetch project_id location operation_id t p e j (t + 2) 0
      (by omega) (fun i h1 h2 => hpre i (by omega)) (by rw [h0j]; exact herr)
    rw [wait_gke_operation, this, h0j]

/-- C7 witness: sessions whose first poll is non-terminal and whose second
poll raises "boom" (`poll_interval = 1`, `timeout = 10`): the error is the
result of the call. -/
theorem claim7_fetch_error_surfaces_witness :
    _wait_cloudsql_operation_single sqlErrFetch 1 10 0 = .raised "boom" (1 * 1) ∧
    wait_gke_operation gkeErrFetch "p" "l" "o" 10 1 =
      .envelope "boom" "p" "l" "o" (1 * 1) :=
  ⟨claim7_fetch_error_surfaces.1 sqlErrFetch 1 10 0 1 "boom" (by omega)
      (by
        intro i hi
        have h0 : i = 0 := by omega
        subst h0
        exact ⟨pendingSqlOp, rfl, by decide, by omega⟩)
      rfl,
   claim7_fetch_error_surfaces.2 gkeErrFetch "p" "l" "o" 10 1 1 "boom" (by omega)
      (by
        intro i hi
        have h0 : i = 0 := by omega
        subst h0
        exact ⟨runningGkeOp, rfl, by decide, by decide, by omega⟩)
      rfl⟩
